import Mathlib

/-
  Verification of the SAP automation orchestration/resilience core.

  Shallow embedding of the repository's Python sources:
  - src/core/circuit_breaker.py       (CircuitBreaker)
  - src/api/middleware.py             (TokenBucket, RateLimiter)
  - src/core/base_module.py           (call_bapi, parse_sap_return_messages)
  - src/modules/fi/accounts_payable.py (AccountsPayable.create, get_vendor_balance)
  - src/workflows/invoice_processing_workflow.py (validation, PO matching, flow)
  - src/workflows/procure_to_pay.py   (ProcureToPayWorkflow.execute)

  Machine integers / floats of the source are modelled as Nat (timestamps in
  whole seconds) and Rat (monetary amounts, token counts); remote calls are
  modelled by environment records supplying each remote outcome as an
  Except value; exceptions are Except.error.
-/

namespace SAPAI

/-! ## Circuit breaker (src/core/circuit_breaker.py) -/

/-- The three states of `CircuitState` in circuit_breaker.py. (`opened`
names the Python `OPEN` member; `open` is a Lean keyword.) -/
inductive CircuitState where
  | closed
  | opened
  | halfOpen
  deriving DecidableEq, Repr

/-- State of a `CircuitBreaker` instance. Timestamps are wall-clock seconds
(`datetime.now()` is monotone within a run). -/
structure CircuitBreaker where
  failureThreshold : Nat
  timeout : Nat
  failures : Nat
  lastFailureTime : Option Nat
  state : CircuitState
  deriving DecidableEq, Repr

/-- Python `CircuitBreaker.__init__(failure_threshold, timeout)`. -/
def CircuitBreaker.init (failureThreshold timeout : Nat) : CircuitBreaker :=
  { failureThreshold := failureThreshold, timeout := timeout,
    failures := 0, lastFailureTime := none, state := .closed }

/-- Python `CircuitBreaker._on_success`: reset the failure count and close. -/
def CircuitBreaker.onSuccess (cb : CircuitBreaker) : CircuitBreaker :=
  { cb with failures := 0, state := .closed }

/-- Python `CircuitBreaker._on_failure` at wall-clock time `now`: increment the
failure count, stamp the failure time, and trip to OPEN once the count
reaches the threshold. -/
def CircuitBreaker.onFailure (cb : CircuitBreaker) (now : Nat) : CircuitBreaker :=
  let f := cb.failures + 1
  let st := if cb.failureThreshold ≤ f then CircuitState.opened else cb.state
  { cb with failures := f, lastFailureTime := some now, state := st }

/-- Python `CircuitBreaker._should_attempt_reset` at time `now`. The Python code
computes `(datetime.now() - self.last_failure_time).seconds`, which is the
seconds *component* of the timedelta — the elapsed time modulo 86400 (one
day) — not the total elapsed seconds. -/
def CircuitBreaker.shouldAttemptReset (cb : CircuitBreaker) (now : Nat) : Bool :=
  match cb.lastFailureTime with
  | none => true
  | some t => decide (cb.timeout ≤ (now - t) % 86400)

/-- Behaviour of the wrapped operation (`func`), were it invoked. -/
inductive CallOutcome where
  | success
  | failure
  deriving DecidableEq, Repr

/-- Observable result of one `CircuitBreaker.call`: normal return, the
fail-fast circuit-open error (`raise Exception("Circuit breaker is OPEN")`),
or the wrapped operation's own exception re-raised. -/
inductive CallResult where
  | ok
  | circuitOpenError
  | opError
  deriving DecidableEq, Repr

/-- One step of `CircuitBreaker.call`: the breaker state afterwards, the
result surfaced to the caller, and whether the wrapped operation was
actually invoked. -/
structure CallStep where
  cb : CircuitBreaker
  result : CallResult
  invoked : Bool
  deriving DecidableEq, Repr

/-- The try/except body of `CircuitBreaker.call`: invoke `func`, then
`_on_success` or `_on_failure` and re-raise. -/
def CircuitBreaker.runOp (cb : CircuitBreaker) (now : Nat) : CallOutcome → CallStep
  | .success => ⟨cb.onSuccess, .ok, true⟩
  | .failure => ⟨cb.onFailure now, .opError, true⟩

/-- Python `CircuitBreaker.call` at time `now`, with the wrapped operation's
behaviour given by `oc`. While OPEN, either move to HALF_OPEN (cooldown
check) and run the trial call, or fail fast without invoking `func`. -/
def CircuitBreaker.call (cb : CircuitBreaker) (now : Nat) (oc : CallOutcome) : CallStep :=
  if cb.state = .opened then
    if cb.shouldAttemptReset now then
      CircuitBreaker.runOp { cb with state := .halfOpen } now oc
    else
      ⟨cb, .circuitOpenError, false⟩
  else
    CircuitBreaker.runOp cb now oc

/-- Fold a sequence of (time, outcome) calls through the breaker,
keeping only the final breaker state. -/
def CircuitBreaker.callSeq (cb : CircuitBreaker) : List (Nat × CallOutcome) → CircuitBreaker
  | [] => cb
  | (t, oc) :: rest => CircuitBreaker.callSeq (cb.call t oc).cb rest

/-- The module-level singleton `sap_circuit_breaker = CircuitBreaker(3, 60)`. -/
def sapCircuitBreaker : CircuitBreaker := CircuitBreaker.init 3 60

/-! ### C2 / C3 theorems -/

/-- Claim C2 (failing input): the breaker trips OPEN after 3 consecutive
failures (last failure at t = 1000), and the next call attempt comes at
t = 87400, exactly 86400 s = 24 h later — far beyond the 60 s cooldown, so
the claim says it must move to HALF_OPEN and permit one trial call. The
code instead computes `(now - last_failure_time).seconds = 86400 % 86400 =
0 < 60`, keeps the breaker OPEN, fails fast, and never invokes the wrapped
operation: `_should_attempt_reset` reads the `seconds` component of the
timedelta (elapsed time modulo one day) where its stated purpose — "Check
if enough time passed to retry" — requires the total elapsed time. -/
theorem c2_cooldown_elapsed_day_boundary_stays_open :
    (CircuitBreaker.callSeq sapCircuitBreaker
        [(100, .failure), (200, .failure), (1000, .failure)]).state
      = CircuitState.opened
    ∧ (CircuitBreaker.callSeq sapCircuitBreaker
        [(100, .failure), (200, .failure), (1000, .failure)]).lastFailureTime
      = some 1000
    ∧ sapCircuitBreaker.timeout ≤ 87400 - 1000
    ∧ ((CircuitBreaker.callSeq sapCircuitBreaker
        [(100, .failure), (200, .failure), (1000, .failure)]).call
          87400 .success).result = CallResult.circuitOpenError
    ∧ ((CircuitBreaker.callSeq sapCircuitBreaker
        [(100, .failure), (200, .failure), (1000, .failure)]).call
          87400 .success).invoked = false
    ∧ ((CircuitBreaker.callSeq sapCircuitBreaker
        [(100, .failure), (200, .failure), (1000, .failure)]).call
          87400 .success).cb.state = CircuitState.opened := by
  decide

/-- Claim C3: whenever the breaker is OPEN and the cooldown has not elapsed
(`now - t < timeout` where `t` is the last failure time), `call` fails fast
with the circuit-open error, does not invoke the wrapped operation at all,
and leaves the breaker state unchanged. -/
theorem c3_open_fails_fast (cb : CircuitBreaker) (now t : Nat) (oc : CallOutcome)
    (hstate : cb.state = CircuitState.opened)
    (hlast : cb.lastFailureTime = some t)
    (hcool : now - t < cb.timeout) :
    (cb.call now oc).result = CallResult.circuitOpenError
    ∧ (cb.call now oc).invoked = false
    ∧ (cb.call now oc).cb = cb := by
  have hmod : (now - t) % 86400 ≤ now - t := Nat.mod_le _ _
  have hreset : cb.shouldAttemptReset now = false := by
    simp only [CircuitBreaker.shouldAttemptReset, hlast, decide_eq_false_iff_not, not_le]
    exact lt_of_le_of_lt hmod hcool
  simp [CircuitBreaker.call, hstate, hreset]

/-- Witness for C3 at a concrete breaker: OPEN with last failure at 1000,
timeout 60, called at 1030 (30 s elapsed, cooldown not over). -/
theorem c3_witness :
    let cb : CircuitBreaker :=
      { failureThreshold := 3, timeout := 60, failures := 3,
        lastFailureTime := some 1000, state := .opened }
    (cb.call 1030 .success).result = CallResult.circuitOpenError
    ∧ (cb.call 1030 .success).invoked = false
    ∧ (cb.call 1030 .success).cb = cb :=
  c3_open_fails_fast _ 1030 1000 .success rfl rfl (by decide)

/-! ## Token-bucket rate limiting (src/api/middleware.py) -/

/-- Python `TokenBucket` state. Python floats (token counts, `time.time()`
timestamps in seconds) are modelled as rationals. -/
structure TokenBucket where
  capacity : ℚ
  refillRate : ℚ
  tokens : ℚ
  lastRefill : ℚ
  deriving DecidableEq, Repr

/-- Python `TokenBucket._refill` at wall-clock time `now`: add
`elapsed * refill_rate` tokens, capped at `capacity`, and stamp the
refill time. -/
def TokenBucket.refill (b : TokenBucket) (now : ℚ) : TokenBucket :=
  let elapsed := now - b.lastRefill
  let tokensToAdd := elapsed * b.refillRate
  { b with tokens := min b.capacity (b.tokens + tokensToAdd), lastRefill := now }

/-- Python `TokenBucket.consume(tokens=n)` at time `now`: refill, then subtract
`n` if at least `n` tokens are available. Returns the decision and the
bucket afterwards. -/
def TokenBucket.consume (b : TokenBucket) (now : ℚ) (n : ℚ) : Bool × TokenBucket :=
  if n ≤ (b.refill now).tokens
  then (true, { b.refill now with tokens := (b.refill now).tokens - n })
  else (false, b.refill now)

/-- Python `TokenBucket.get_wait_time`: `0.0` if a token is available, else
`(1 - tokens) / refill_rate`. `RateLimiter.get_retry_after(client_id)`
returns exactly this value for the client's bucket. -/
def TokenBucket.getWaitTime (b : TokenBucket) : ℚ :=
  if 1 ≤ b.tokens then 0 else (1 - b.tokens) / b.refillRate

/-- The bucket `RateLimiter.is_allowed` creates lazily for a new client:
`capacity = requests_per_minute`, `refill_rate = requests_per_minute / 60`
tokens per second, initially full (`tokens = capacity`), last refill
stamped at creation time. -/
def RateLimiter.freshBucket (requestsPerMinute : ℚ) (now : ℚ) : TokenBucket :=
  { capacity := requestsPerMinute, refillRate := requestsPerMinute / 60,
    tokens := requestsPerMinute, lastRefill := now }

/-- Observable operations on one client's bucket: an `allow(client_id)`
call (which consumes 1 token) or a bare refill, each at a wall-clock
time. -/
inductive BucketEvent where
  | allow (t : ℚ)
  | refresh (t : ℚ)
  deriving DecidableEq, Repr

/-- Wall-clock time of an event. -/
def BucketEvent.time : BucketEvent → ℚ
  | .allow t => t
  | .refresh t => t

/-- Apply one event to a bucket. -/
def TokenBucket.step (b : TokenBucket) : BucketEvent → TokenBucket
  | .allow t => (b.consume t 1).2
  | .refresh t => b.refill t

/-- Apply a sequence of events to a bucket. -/
def TokenBucket.run (b : TokenBucket) : List BucketEvent → TokenBucket
  | [] => b
  | e :: es => (b.step e).run es

/-- The spec's bucket invariant `0 ≤ tokens ≤ capacity`. -/
def TokenBucket.inv (b : TokenBucket) : Prop :=
  0 ≤ b.tokens ∧ b.tokens ≤ b.capacity

theorem TokenBucket.refill_inv (b : TokenBucket) (now : ℚ)
    (hr : 0 ≤ b.refillRate) (hinv : b.inv) (ht : b.lastRefill ≤ now) :
    (b.refill now).inv := by
  obtain ⟨h0, hc⟩ := hinv
  constructor
  · exact le_min (le_trans h0 hc)
      (add_nonneg h0 (mul_nonneg (sub_nonneg.mpr ht) hr))
  · exact min_le_left _ _

theorem TokenBucket.refill_capacity (b : TokenBucket) (now : ℚ) :
    (b.refill now).capacity = b.capacity := rfl

theorem TokenBucket.refill_rate_eq (b : TokenBucket) (now : ℚ) :
    (b.refill now).refillRate = b.refillRate := rfl

theorem TokenBucket.step_capacity (b : TokenBucket) (e : BucketEvent) :
    (b.step e).capacity = b.capacity := by
  cases e with
  | allow t =>
    simp only [TokenBucket.step, TokenBucket.consume]
    split <;> rfl
  | refresh t => rfl

theorem TokenBucket.step_rate (b : TokenBucket) (e : BucketEvent) :
    (b.step e).refillRate = b.refillRate := by
  cases e with
  | allow t =>
    simp only [TokenBucket.step, TokenBucket.consume]
    split <;> rfl
  | refresh t => rfl

theorem TokenBucket.step_lastRefill (b : TokenBucket) (e : BucketEvent) :
    (b.step e).lastRefill = e.time := by
  cases e with
  | allow t =>
    simp only [TokenBucket.step, TokenBucket.consume]
    split <;> rfl
  | refresh t => rfl

theorem TokenBucket.step_inv (b : TokenBucket) (e : BucketEvent)
    (hr : 0 ≤ b.refillRate) (hinv : b.inv) (ht : b.lastRefill ≤ e.time) :
    (b.step e).inv := by
  have hr1 := b.refill_inv e.time hr hinv ht
  cases e with
  | refresh t => exact hr1
  | allow t =>
    simp only [TokenBucket.step, TokenBucket.consume]
    split
    · rename_i hge
      obtain ⟨ha, hb⟩ := hr1
      exact ⟨by simpa using sub_nonneg.mpr hge, by
        simp only [TokenBucket.inv] at hb ⊢
        calc (b.refill t).tokens - 1 ≤ (b.refill t).tokens := by linarith
          _ ≤ (b.refill t).capacity := hb⟩
    · exact hr1

/-- Claim C4: for any client's token bucket satisfying the invariant
`0 ≤ tokens ≤ capacity` (as every freshly created bucket does), and for any
sequence of `allow()` calls interleaved with refills whose wall-clock times
are non-decreasing, the invariant holds at the final observation point —
tokens never exceed capacity and never go negative. -/
theorem c4_token_bucket_invariant (b : TokenBucket) (evs : List BucketEvent)
    (hr : 0 ≤ b.refillRate)
    (hinv : 0 ≤ b.tokens ∧ b.tokens ≤ b.capacity)
    (hchain : List.Chain (fun x y => x ≤ y) b.lastRefill (evs.map BucketEvent.time)) :
    0 ≤ (b.run evs).tokens ∧ (b.run evs).tokens ≤ (b.run evs).capacity := by
  induction evs generalizing b with
  | nil => exact hinv
  | cons e es ih =>
    simp only [List.map_cons, List.chain_cons] at hchain
    have hstep := b.step_inv e hr hinv hchain.1
    have hrate : (b.step e).refillRate = b.refillRate := b.step_rate e
    have hlast : (b.step e).lastRefill = e.time := b.step_lastRefill e
    simp only [TokenBucket.run]
    exact ih (b.step e) (hrate ▸ hr) hstep (by rw [hlast]; exact hchain.2)

/-- Witness for C4: a fresh 60-rpm bucket, two allows at t = 0, a refill at
t = 30 and an allow at t = 45 keep `0 ≤ tokens ≤ capacity`. -/
theorem c4_witness :
    0 ≤ ((RateLimiter.freshBucket 60 0).run
          [.allow 0, .allow 0, .refresh 30, .allow 45]).tokens
    ∧ ((RateLimiter.freshBucket 60 0).run
          [.allow 0, .allow 0, .refresh 30, .allow 45]).tokens
        ≤ ((RateLimiter.freshBucket 60 0).run
          [.allow 0, .allow 0, .refresh 30, .allow 45]).capacity :=
  c4_token_bucket_invariant (RateLimiter.freshBucket 60 0)
    [.allow 0, .allow 0, .refresh 30, .allow 45]
    (by norm_num [RateLimiter.freshBucket])
    (by norm_num [RateLimiter.freshBucket])
    (by norm_num [RateLimiter.freshBucket, BucketEvent.time])

/-- Decisions of a run of consecutive `allow()` calls (each a
`consume(1)`), with the bucket after all of them. -/
def TokenBucket.runAllows : TokenBucket → List ℚ → List Bool × TokenBucket
  | b, [] => ([], b)
  | b, t :: ts =>
    ((b.consume t 1).1 :: (TokenBucket.runAllows (b.consume t 1).2 ts).1,
      (TokenBucket.runAllows (b.consume t 1).2 ts).2)

/-- Behaviour of a run of `allow()` calls when at least as many tokens as
calls are stored: every call succeeds, the capacity and refill rate are
untouched, the cap is respected, the refill stamp only moves forward, and
the tokens available at any later instant `u` are bounded by the initial
stock plus the refill accrued up to `u` minus one token per call. -/
theorem TokenBucket.runAllows_spec (ts : List ℚ) (b : TokenBucket)
    (hr : 0 ≤ b.refillRate)
    (hcap : b.tokens ≤ b.capacity)
    (hchain : List.Chain (fun x y => x ≤ y) b.lastRefill ts)
    (hk : (ts.length : ℚ) ≤ b.tokens) :
    (TokenBucket.runAllows b ts).1 = List.replicate ts.length true
    ∧ (TokenBucket.runAllows b ts).2.capacity = b.capacity
    ∧ (TokenBucket.runAllows b ts).2.refillRate = b.refillRate
    ∧ (TokenBucket.runAllows b ts).2.tokens ≤ b.capacity
    ∧ b.lastRefill ≤ (TokenBucket.runAllows b ts).2.lastRefill
    ∧ ∀ u : ℚ, b.lastRefill ≤ u → (∀ t ∈ ts, t ≤ u) →
        ((TokenBucket.runAllows b ts).2.refill u).tokens + (ts.length : ℚ)
          ≤ b.tokens + (u - b.lastRefill) * b.refillRate := by
  induction ts generalizing b with
  | nil =>
    refine ⟨rfl, rfl, rfl, hcap, le_refl _, ?_⟩
    intro u hu _
    simp only [List.length_nil, Nat.cast_zero, add_zero]
    exact min_le_right _ _
  | cons t ts ih =>
    rw [List.chain_cons] at hchain
    obtain ⟨hbt, hchain2⟩ := hchain
    rw [List.length_cons] at hk
    push_cast at hk
    have hlen0 : (0 : ℚ) ≤ (ts.length : ℚ) := Nat.cast_nonneg _
    have hb1low : b.tokens ≤ (b.refill t).tokens :=
      le_min hcap (le_add_of_nonneg_right (mul_nonneg (sub_nonneg.mpr hbt) hr))
    have hb1up : (b.refill t).tokens ≤ b.tokens + (t - b.lastRefill) * b.refillRate :=
      min_le_right _ _
    have hb1cap : (b.refill t).tokens ≤ b.capacity := min_le_left _ _
    have h1le : 1 ≤ (b.refill t).tokens := le_trans (by linarith) hb1low
    have hcons : b.consume t 1
        = (true, { b.refill t with tokens := (b.refill t).tokens - 1 }) := by
      simp only [TokenBucket.consume, if_pos h1le]
    obtain ⟨ih1, ih2, ih3, ih4, ih5, ih6⟩ :=
      ih { b.refill t with tokens := (b.refill t).tokens - 1 }
        hr (by change (b.refill t).tokens - 1 ≤ b.capacity; linarith)
        hchain2
        (by change (ts.length : ℚ) ≤ (b.refill t).tokens - 1; linarith)
    simp only [TokenBucket.runAllows, hcons]
    refine ⟨?_, ih2, ih3, ih4, ?_, ?_⟩
    · rw [List.length_cons, ih1]
      rfl
    · exact le_trans hbt ih5
    · intro u hu hall
      have htu : t ≤ u := hall t (List.mem_cons_self t ts)
      have h6 := ih6 u htu (fun x hx => hall x (List.mem_cons_of_mem t hx))
      rw [List.length_cons]
      push_cast
      have hring : (t - b.lastRefill) * b.refillRate + (u - t) * b.refillRate
          = (u - b.lastRefill) * b.refillRate := by ring
      change ((TokenBucket.runAllows _ ts).2.refill u).tokens
          + ((ts.length : ℚ) + 1) ≤ _
      have h6tok : ((TokenBucket.runAllows
            { b.refill t with tokens := (b.refill t).tokens - 1 } ts).2.refill u).tokens
          + (ts.length : ℚ) ≤ ((b.refill t).tokens - 1) + (u - t) * b.refillRate := h6
      linarith

/-- Claim C6 counterexample: `get_wait_time` reads the *stored* token count
without refilling first, so its value is exact only from the bucket's
`last_refill` instant, not from the moment of the call. Concretely: a
bucket with capacity 60, refill rate 1/s, 0 stored tokens, last refilled at
t = 0, queried at call moment t = 5, returns `(1 - 0)/1 = 1` second — but
at t = 5 the bucket already holds 5 ≥ 1 tokens (the true delay from the
moment of the call is 0, not 1), so the returned value is not the exact
delay from the moment of the call. -/
theorem c6_counterexample :
    TokenBucket.getWaitTime ⟨60, 1, 0, 0⟩ = 1
    ∧ 1 ≤ (TokenBucket.refill ⟨60, 1, 0, 0⟩ 5).tokens
    ∧ (0 : ℚ) < 1 := by
  refine ⟨?_, ?_, by norm_num⟩
  · norm_num [TokenBucket.getWaitTime]
  · norm_num [TokenBucket.refill]

/-- Claim C6 (amended): for every bucket with positive refill rate,
`capacity ≥ 1` and `tokens ≤ capacity`, `get_wait_time` returns exactly
`max(0, (1 - tokens) / refill_rate)`, and this value is the exact delay
measured from the bucket's `last_refill` instant until one token becomes
available: refilling at `last_refill + wait` yields at least one token,
while refilling at any earlier delay `d < wait` yields strictly less than
one token. (It is the delay from the moment of the call exactly when the
bucket was refilled at that moment, as in the `is_allowed` →
`get_retry_after` sequence.) -/
theorem c6_wait_time_exact_from_last_refill (b : TokenBucket)
    (hr : 0 < b.refillRate) (hcap : 1 ≤ b.capacity) :
    b.getWaitTime = max 0 ((1 - b.tokens) / b.refillRate)
    ∧ 1 ≤ (b.refill (b.lastRefill + b.getWaitTime)).tokens
    ∧ ∀ d : ℚ, 0 ≤ d → d < b.getWaitTime →
        (b.refill (b.lastRefill + d)).tokens < 1 := by
  refine ⟨?_, ?_, ?_⟩
  · unfold TokenBucket.getWaitTime
    split
    · rename_i h1
      have : (1 - b.tokens) / b.refillRate ≤ 0 := by
        rw [div_le_iff₀ hr]
        linarith
      exact (max_eq_left this).symm
    · rename_i h1
      push_neg at h1
      have : (0 : ℚ) ≤ (1 - b.tokens) / b.refillRate := by
        rw [le_div_iff₀ hr]
        linarith
      exact (max_eq_right this).symm
  · unfold TokenBucket.getWaitTime TokenBucket.refill
    split
    · rename_i h1
      simp only [add_zero, sub_self, zero_mul, le_min_iff]
      exact ⟨hcap, by linarith⟩
    · rename_i h1
      push_neg at h1
      have hmul : (1 - b.tokens) / b.refillRate * b.refillRate = 1 - b.tokens :=
        div_mul_cancel₀ _ (ne_of_gt hr)
      simp only [add_sub_cancel_left, hmul, le_min_iff]
      constructor
      · exact hcap
      · linarith
  · intro d hd hdw
    unfold TokenBucket.getWaitTime at hdw
    unfold TokenBucket.refill
    simp only [add_sub_cancel_left]
    split at hdw
    · exact absurd hdw (by linarith)
    · rename_i h1
      push_neg at h1
      have hdr : d * b.refillRate < 1 - b.tokens := by
        have := (lt_div_iff₀ hr).mp hdw
        linarith
      calc min b.capacity (b.tokens + d * b.refillRate)
          ≤ b.tokens + d * b.refillRate := min_le_right _ _
        _ < 1 := by linarith

/-- Claim C5: with `requests_per_minute = 60` and the fresh bucket lazily
created for a client at time `t0` (capacity 60, refill rate 60/60 = 1
token/s, initially full), any 60 `allow()` calls issued within one second
(non-decreasing times, all before `t0 + 1`) all succeed, and a 61st call
in that same second fails; the limiter then reports a strictly positive
retry-after for the client (`get_retry_after` returns the bucket's
`get_wait_time`). -/
theorem c5_rate_limiter_fairness (t0 u : ℚ) (ts : List ℚ)
    (hlen : ts.length = 60)
    (hchain : List.Chain (fun x y => x ≤ y) t0 ts)
    (hall : ∀ t ∈ ts, t ≤ u)
    (ht0u : t0 ≤ u)
    (hu1 : u < t0 + 1) :
    ((RateLimiter.freshBucket 60 t0).runAllows ts).1 = List.replicate 60 true
    ∧ (((RateLimiter.freshBucket 60 t0).runAllows ts).2.consume u 1).1 = false
    ∧ 0 < (((RateLimiter.freshBucket 60 t0).runAllows ts).2.consume u 1).2.getWaitTime := by
  obtain ⟨s1, s2, s3, s4, s5, s6⟩ :=
    TokenBucket.runAllows_spec ts (RateLimiter.freshBucket 60 t0)
      (by norm_num [RateLimiter.freshBucket])
      le_rfl
      hchain
      (by rw [hlen]; norm_num [RateLimiter.freshBucket])
  have h6 : (((RateLimiter.freshBucket 60 t0).runAllows ts).2.refill u).tokens
      + ((ts.length : ℕ) : ℚ) ≤ 60 + (u - t0) * (60 / 60) := s6 u ht0u hall
  rw [hlen] at h6
  push_cast at h6
  have hmul : (u - t0) * ((60 : ℚ) / 60) = u - t0 := by norm_num
  rw [hmul] at h6
  have htk : (((RateLimiter.freshBucket 60 t0).runAllows ts).2.refill u).tokens < 1 := by
    linarith
  have hcons : ((RateLimiter.freshBucket 60 t0).runAllows ts).2.consume u 1
      = (false, ((RateLimiter.freshBucket 60 t0).runAllows ts).2.refill u) := by
    simp only [TokenBucket.consume, if_neg (not_le.mpr htk)]
  have hrate : (((RateLimiter.freshBucket 60 t0).runAllows ts).2.refill u).refillRate
      = ((60 : ℚ) / 60) := by
    rw [TokenBucket.refill_rate_eq, s3]; rfl
  have hrate1 : (((RateLimiter.freshBucket 60 t0).runAllows ts).2.refill u).refillRate
      = 1 := by rw [hrate]; norm_num
  refine ⟨by rw [s1, hlen], by rw [hcons], ?_⟩
  rw [hcons]
  simp only [TokenBucket.getWaitTime, if_neg (not_le.mpr htk), hrate1, div_one]
  linarith

/-- A constant time list chains from its own value under `≤`. -/
theorem chain_le_replicate (n : ℕ) (c : ℚ) :
    List.Chain (fun x y => x ≤ y) c (List.replicate n c) := by
  induction n with
  | zero => exact List.Chain.nil
  | succ n ih => exact List.Chain.cons le_rfl ih

/-- Witness for C5: fresh bucket created at `t0 = 0`, 60 calls all at
time 0, the 61st also at time 0: the 60 succeed, the 61st fails, and the
reported wait is positive. -/
theorem c5_witness :
    ((RateLimiter.freshBucket 60 0).runAllows (List.replicate 60 (0 : ℚ))).1
      = List.replicate 60 true
    ∧ (((RateLimiter.freshBucket 60 0).runAllows
        (List.replicate 60 (0 : ℚ))).2.consume 0 1).1 = false
    ∧ 0 < (((RateLimiter.freshBucket 60 0).runAllows
        (List.replicate 60 (0 : ℚ))).2.consume 0 1).2.getWaitTime :=
  c5_rate_limiter_fairness 0 0 (List.replicate 60 0)
    (List.length_replicate 60 0)
    (chain_le_replicate 60 0)
    (fun t ht => le_of_eq (List.eq_of_mem_replicate ht))
    le_rfl
    (by norm_num)

/-- Witness for C6 (amended) at a concrete bucket: capacity 60, rate 1,
half a token stored, last refilled at t = 100. -/
theorem c6_witness :
    TokenBucket.getWaitTime ⟨60, 1, 1/2, 100⟩
      = max 0 ((1 - (1/2 : ℚ)) / 1)
    ∧ 1 ≤ (TokenBucket.refill ⟨60, 1, 1/2, 100⟩
        (100 + TokenBucket.getWaitTime ⟨60, 1, 1/2, 100⟩)).tokens
    ∧ ∀ d : ℚ, 0 ≤ d → d < TokenBucket.getWaitTime ⟨60, 1, 1/2, 100⟩ →
        (TokenBucket.refill ⟨60, 1, 1/2, 100⟩ (100 + d)).tokens < 1 :=
  c6_wait_time_exact_from_last_refill ⟨60, 1, 1/2, 100⟩
    (by norm_num) (by norm_num)

/-! ## Structured remote results and the transaction wrapper
    (src/core/base_module.py, src/modules/fi/accounts_payable.py) -/

/-- One entry of a BAPI `RETURN` structure: severity type (E = error,
A = abort, W = warning, I/S = info; absent keys read as `''`) and message
text. -/
structure ReturnMsg where
  TYPE : String
  MESSAGE : String
  deriving DecidableEq, Repr

/-- The `RETURN` field of a structured result: absent, a single dict, or a
table (list) of messages. -/
inductive ReturnField where
  | absent
  | dict (m : ReturnMsg)
  | table (ms : List ReturnMsg)
  deriving DecidableEq, Repr

/-- A structured BAPI result: its `RETURN` field and the `OBJ_KEY`
document key (`result.get('OBJ_KEY', '')` yields `""` when absent). -/
structure BapiResult where
  ret : ReturnField
  objKey : String
  deriving DecidableEq, Repr

/-- The error check inside `BaseSAPModule.call_bapi`: it raises exactly
when the `RETURN` field is a single dict whose TYPE is E or A. A `RETURN`
table is not checked there (the domain modules parse it afterwards). -/
def ReturnField.raisesDictError : ReturnField → Bool
  | .dict m => decide (m.TYPE = "E" ∨ m.TYPE = "A")
  | _ => false

/-- Python `BaseSAPModule.call_bapi`: propagate the connector outcome, raising
`BAPI Error: ...` on a single-dict error/abort `RETURN`; a connector
exception propagates unchanged. -/
def callBapi (outcome : Except String BapiResult) : Except String BapiResult :=
  match outcome with
  | .error e => .error e
  | .ok r =>
    match r.ret with
    | .dict m =>
      if m.TYPE = "E" ∨ m.TYPE = "A" then .error ("BAPI Error: " ++ m.MESSAGE)
      else .ok r
    | _ => .ok r

/-- Accumulator of `BaseSAPModule.parse_sap_return_messages`. -/
structure ParsedMessages where
  hasErrors : Bool
  errors : List String
  warnings : List String
  info : List String
  deriving DecidableEq, Repr

/-- One loop iteration of `parse_sap_return_messages`. -/
def parseStep (acc : ParsedMessages) (m : ReturnMsg) : ParsedMessages :=
  if m.TYPE = "E" ∨ m.TYPE = "A" then
    { acc with hasErrors := true, errors := acc.errors ++ [m.MESSAGE] }
  else if m.TYPE = "W" then
    { acc with warnings := acc.warnings ++ [m.MESSAGE] }
  else if m.TYPE = "I" ∨ m.TYPE = "S" then
    { acc with info := acc.info ++ [m.MESSAGE] }
  else acc

/-- Python `BaseSAPModule.parse_sap_return_messages` over a message table. -/
def parseSapReturnMessages (ms : List ReturnMsg) : ParsedMessages :=
  ms.foldl parseStep { hasErrors := false, errors := [], warnings := [], info := [] }

/-- The `RETURN` normalisation in the domain `create()` methods:
`result.get('RETURN', []) if isinstance(result.get('RETURN'), list) else
[result.get('RETURN', {})]` (an absent field becomes the one empty
dict `{}`, whose TYPE reads as `''`). -/
def normalizeReturn : ReturnField → List ReturnMsg
  | .table ms => ms
  | .dict m => [m]
  | .absent => [⟨"", ""⟩]

/-- Whether a structured result's `RETURN` field contains an error- or
abort-severity message (the claim's premise). -/
def ReturnField.hasErrorSeverity (r : ReturnField) : Bool :=
  (normalizeReturn r).any fun m => decide (m.TYPE = "E" ∨ m.TYPE = "A")

theorem parseStep_hasErrors (acc : ParsedMessages) (m : ReturnMsg) :
    (parseStep acc m).hasErrors
      = (acc.hasErrors || decide (m.TYPE = "E" ∨ m.TYPE = "A")) := by
  unfold parseStep
  split
  · rename_i h
    simp [h]
  · rename_i h
    simp only [decide_eq_false h, Bool.or_false]
    split
    · rfl
    · split <;> rfl

theorem foldl_parseStep_hasErrors (ms : List ReturnMsg) (acc : ParsedMessages) :
    (ms.foldl parseStep acc).hasErrors
      = (acc.hasErrors || ms.any fun m => decide (m.TYPE = "E" ∨ m.TYPE = "A")) := by
  induction ms generalizing acc with
  | nil => simp
  | cons m ms ih =>
    simp only [List.foldl_cons, List.any_cons]
    rw [ih, parseStep_hasErrors, Bool.or_assoc]

theorem parseSapReturnMessages_hasErrors (ms : List ReturnMsg) :
    (parseSapReturnMessages ms).hasErrors
      = ms.any fun m => decide (m.TYPE = "E" ∨ m.TYPE = "A") := by
  rw [parseSapReturnMessages, foldl_parseStep_hasErrors]
  rfl

/-- Python `TransactionStatus` enumeration from base_module.py. -/
inductive TransactionStatus where
  | pending
  | inProgress
  | completed
  | failed
  | cancelled
  deriving DecidableEq, Repr

/-- The audit-relevant fields of an `SAPTransaction` record. -/
structure SAPTransactionRec where
  transactionType : String
  status : TransactionStatus
  sapDocumentNumber : Option String
  deriving DecidableEq, Repr

/-- Remote outcomes consumed by one `AccountsPayable.create` run:
connector-level results of `BAPI_ACC_DOCUMENT_POST`,
`BAPI_TRANSACTION_COMMIT` and `BAPI_TRANSACTION_ROLLBACK`. -/
structure APCreateEnv where
  postOutcome : Except String BapiResult
  commitOutcome : Except String BapiResult
  rollbackOutcome : Except String BapiResult
  deriving Repr

/-- Observable outcome of one `AccountsPayable.create` run: the returned
document number or the exception raised, the module's audit list
afterwards, and whether a rollback was issued. -/
structure CreateOutcome where
  result : Except String String
  transactions : List SAPTransactionRec
  rollbackIssued : Bool
  deriving Repr

/-- The except handler of `create`: `rollback_transaction()` then
`raise`. If the rollback BAPI itself fails, its exception replaces the
original one — either way an exception propagates to the caller. -/
def rollbackThenReraise (env : APCreateEnv) (e : String) : Except String String :=
  match callBapi env.rollbackOutcome with
  | .error e2 => .error e2
  | .ok _ => .error e

/-- Python `AccountsPayable.create(data)` (src/modules/fi/accounts_payable.py
lines 75-183) with the validation verdict and the module's audit list
`trans0` made explicit: raise `ValidationException` on validation errors;
otherwise post the document BAPI, check the parsed `RETURN` messages,
read `OBJ_KEY`, commit, append a COMPLETED transaction record and return
the document number; on any exception inside the try block, roll back and
re-raise. -/
def accountsPayableCreate (env : APCreateEnv) (validationErrors : List String)
    (trans0 : List SAPTransactionRec) : CreateOutcome :=
  if validationErrors ≠ [] then
    { result := .error "ValidationException", transactions := trans0,
      rollbackIssued := false }
  else
    match callBapi env.postOutcome with
    | .error e =>
      { result := rollbackThenReraise env e, transactions := trans0,
        rollbackIssued := true }
    | .ok r =>
      if (parseSapReturnMessages (normalizeReturn r.ret)).hasErrors then
        { result := rollbackThenReraise env "Invoice posting failed",
          transactions := trans0, rollbackIssued := true }
      else
        match callBapi env.commitOutcome with
        | .error e =>
          { result := rollbackThenReraise env e, transactions := trans0,
            rollbackIssued := true }
        | .ok _ =>
          { result := .ok r.objKey,
            transactions := trans0 ++ [⟨"VENDOR_INVOICE", .completed, some r.objKey⟩],
            rollbackIssued := false }

theorem rollbackThenReraise_isOk (env : APCreateEnv) (e : String) :
    (rollbackThenReraise env e).isOk = false := by
  unfold rollbackThenReraise
  cases callBapi env.rollbackOutcome <;> rfl

/-- Claim C1 counterexample: a `create()` run whose remote structured
result carries an error-severity message (`RETURN` dict with TYPE `E`)
raises after issuing rollback and returns no document number — but NO
transaction record is appended: starting from an empty audit list the
list is still empty afterwards, so no record with status `failed` exists,
refuting the claim's "always results in a transaction record with status
failed appended to the module's audit list". -/
theorem c1_counterexample :
    (ReturnField.dict ⟨"E", "posting failed"⟩).hasErrorSeverity = true
    ∧ (accountsPayableCreate
        ⟨.ok ⟨.dict ⟨"E", "posting failed"⟩, "DOC1"⟩, .ok ⟨.absent, ""⟩, .ok ⟨.absent, ""⟩⟩
        [] []).result.isOk = false
    ∧ (accountsPayableCreate
        ⟨.ok ⟨.dict ⟨"E", "posting failed"⟩, "DOC1"⟩, .ok ⟨.absent, ""⟩, .ok ⟨.absent, ""⟩⟩
        [] []).rollbackIssued = true
    ∧ (accountsPayableCreate
        ⟨.ok ⟨.dict ⟨"E", "posting failed"⟩, "DOC1"⟩, .ok ⟨.absent, ""⟩, .ok ⟨.absent, ""⟩⟩
        [] []).transactions = [] := by
  decide

/-- Claim C1 (amended): for every `create()` run that passed validation
and whose remote structured result contains an error- or abort-severity
message, the call never returns a document number — it raises after
issuing rollback — and the module's audit list is left unchanged: no
transaction record is appended at all (in particular none with status
`failed`; a record, with status `completed`, is appended only on
success). -/
theorem c1_create_error_rolls_back_no_failed_record
    (env : APCreateEnv) (trans0 : List SAPTransactionRec) (r : BapiResult)
    (hpost : env.postOutcome = .ok r)
    (herr : r.ret.hasErrorSeverity = true) :
    (accountsPayableCreate env [] trans0).result.isOk = false
    ∧ (accountsPayableCreate env [] trans0).rollbackIssued = true
    ∧ (accountsPayableCreate env [] trans0).transactions = trans0 := by
  obtain ⟨rret, robj⟩ := r
  have hparse : (parseSapReturnMessages (normalizeReturn rret)).hasErrors = true := by
    rw [parseSapReturnMessages_hasErrors]
    exact herr
  unfold accountsPayableCreate
  rw [if_neg (by simp), hpost]
  cases rret with
  | absent =>
    simp [ReturnField.hasErrorSeverity, normalizeReturn] at herr
  | dict m =>
    have hEA : m.TYPE = "E" ∨ m.TYPE = "A" := by
      simpa [ReturnField.hasErrorSeverity, normalizeReturn] using herr
    simp only [callBapi]
    rw [if_pos hEA]
    exact ⟨rollbackThenReraise_isOk env _, rfl, rfl⟩
  | table ms =>
    simp only [callBapi]
    rw [if_pos hparse]
    exact ⟨rollbackThenReraise_isOk env _, rfl, rfl⟩

/-- Witness for C1 (amended): error severity arriving as a `RETURN`
table, rollback succeeding, one prior COMPLETED record in the audit
list. -/
theorem c1_witness :
    (accountsPayableCreate
        ⟨.ok ⟨.table [⟨"S", "ok"⟩, ⟨"A", "aborted"⟩], "DOC9"⟩,
          .ok ⟨.absent, ""⟩, .ok ⟨.absent, ""⟩⟩
        [] [⟨"VENDOR_INVOICE", .completed, some "DOC0"⟩]).result.isOk = false
    ∧ (accountsPayableCreate
        ⟨.ok ⟨.table [⟨"S", "ok"⟩, ⟨"A", "aborted"⟩], "DOC9"⟩,
          .ok ⟨.absent, ""⟩, .ok ⟨.absent, ""⟩⟩
        [] [⟨"VENDOR_INVOICE", .completed, some "DOC0"⟩]).rollbackIssued = true
    ∧ (accountsPayableCreate
        ⟨.ok ⟨.table [⟨"S", "ok"⟩, ⟨"A", "aborted"⟩], "DOC9"⟩,
          .ok ⟨.absent, ""⟩, .ok ⟨.absent, ""⟩⟩
        [] [⟨"VENDOR_INVOICE", .completed, some "DOC0"⟩]).transactions
      = [⟨"VENDOR_INVOICE", .completed, some "DOC0"⟩] :=
  c1_create_error_rolls_back_no_failed_record
    ⟨.ok ⟨.table [⟨"S", "ok"⟩, ⟨"A", "aborted"⟩], "DOC9"⟩,
      .ok ⟨.absent, ""⟩, .ok ⟨.absent, ""⟩⟩
    [⟨"VENDOR_INVOICE", .completed, some "DOC0"⟩]
    ⟨.table [⟨"S", "ok"⟩, ⟨"A", "aborted"⟩], "DOC9"⟩
    rfl (by decide)

/-! ## Vendor balance inquiry (src/modules/fi/accounts_payable.py) -/

/-- Result of `BAPI_AP_ACC_GETBALANCES`: its `RETURN` field and the
`BALANCES.BALANCE` value when present (`result.get('BALANCES',
{}).get('BALANCE', 0)` reads absent values as 0). -/
structure BalanceResult where
  ret : ReturnField
  balance : Option ℚ
  deriving DecidableEq, Repr

/-- Python `AccountsPayable.get_vendor_balance`: call the balances BAPI through
`call_bapi`; on any exception — a connector-level failure, or the
error/abort-severity `RETURN` dict that `call_bapi` turns into a raise —
swallow it and return 0.0; otherwise return the reported balance
(0 when absent). -/
def getVendorBalance (outcome : Except String BalanceResult) : ℚ :=
  match outcome with
  | .error _ => 0
  | .ok r => if r.ret.raisesDictError then 0 else r.balance.getD 0

/-- Claim C10: `get_vendor_balance` returns 0.0 whenever the remote
balance call fails for any reason — a connector exception or an
error/abort-severity `RETURN` dict raised inside `call_bapi` — and that
value equals the one returned by a successful inquiry reporting a true
balance of zero, so the caller cannot distinguish the two. -/
theorem c10_vendor_balance_swallows_errors (e : String) (m : ReturnMsg)
    (b : Option ℚ) (hm : m.TYPE = "E" ∨ m.TYPE = "A") :
    getVendorBalance (.error e) = 0
    ∧ getVendorBalance (.ok ⟨.dict m, b⟩) = 0
    ∧ getVendorBalance (.error e) = getVendorBalance (.ok ⟨.absent, some 0⟩) := by
  refine ⟨rfl, ?_, rfl⟩
  simp [getVendorBalance, ReturnField.raisesDictError, hm]

/-- Witness for C10: connector failure vs. an E-severity dict carrying a
(nonzero) stale balance of 250 — both yield 0.0. -/
theorem c10_witness :
    getVendorBalance (.error "ConnectionError") = 0
    ∧ getVendorBalance (.ok ⟨.dict ⟨"E", "Not authorized"⟩, some 250⟩) = 0
    ∧ getVendorBalance (.error "ConnectionError")
      = getVendorBalance (.ok ⟨.absent, some 0⟩) :=
  c10_vendor_balance_swallows_errors "ConnectionError" ⟨"E", "Not authorized"⟩
    (some 250) (Or.inl rfl)

/-! ## Invoice processing workflow
    (src/workflows/invoice_processing_workflow.py)

    The AI extraction result is taken as input (the spec treats OCR/field
    extraction as an opaque collaborator); remote lookups and the helpers
    absent from src/ (`_send_to_review_queue`, `_send_approval_notification`,
    `get_or_create_vendor`, `_is_duplicate_invoice`) are spec-modelled as
    environment-supplied outcomes — per the spec, notification sinks are
    fire-and-forget and the workflow does not depend on their success. -/

/-- Python truthiness of an optional string field (`data.get(field)`):
falsy when absent or empty. -/
def truthyS : Option String → Bool
  | none => false
  | some s => decide (s ≠ "")

/-- Python truthiness of an optional numeric field: falsy when absent or
zero. -/
def truthyQ : Option ℚ → Bool
  | none => false
  | some x => decide (x ≠ 0)

/-- Extracted invoice fields as the extraction collaborator returns them.
Dates carry an abstract parsed day number; `none` models an absent (or
empty-string) field. -/
structure InvoiceData where
  vendor : Option String
  invoiceNumber : Option String
  date : Option Int
  amount : Option ℚ
  poNumber : Option String
  vendorCode : Option String
  deriving DecidableEq, Repr

/-- The required-field loop of `_validate_invoice_data` over
`['vendor', 'invoice_number', 'date', 'amount']`, in source order. -/
def requiredErrors (d : InvoiceData) : List String :=
  (if truthyS d.vendor then [] else ["Missing vendor"])
  ++ (if truthyS d.invoiceNumber then [] else ["Missing invoice_number"])
  ++ (if d.date.isSome then [] else ["Missing date"])
  ++ (if truthyQ d.amount then [] else ["Missing amount"])

/-- The amount checks of `_validate_invoice_data` (guarded by the
truthiness of `data.get('amount')`, so a zero amount skips them). -/
def amountErrors (a? : Option ℚ) : List String :=
  match a? with
  | none => []
  | some a =>
    if a = 0 then []
    else (if a ≤ 0 then ["Amount must be positive"] else [])
      ++ (if 1000000 < a then ["Amount exceeds maximum threshold"] else [])

/-- The date checks of `_validate_invoice_data`: not in the future, not
over 365 days old (dates in days). -/
def dateErrors (today : Int) (d? : Option Int) : List String :=
  match d? with
  | none => []
  | some dt =>
    (if today < dt then ["Invoice date is in the future"] else [])
      ++ (if 365 < today - dt then ["Invoice is over 1 year old"] else [])

/-- The duplicate check of `_validate_invoice_data`, reached only when
both `invoice_number` and `vendor_code` are truthy; the duplicate oracle
`_is_duplicate_invoice` is absent from src/ and spec-modelled as a
predicate. -/
def dupErrors (isDup : String → String → Bool) (n? c? : Option String) : List String :=
  match n?, c? with
  | some n, some c =>
    if n ≠ "" ∧ c ≠ "" then (if isDup n c then ["Duplicate invoice number"] else [])
    else []
  | _, _ => []

/-- Python `_validate_invoice_data`: the accumulated error list, in source
order; the data are valid iff it is empty. -/
def validateInvoiceData (today : Int) (isDup : String → String → Bool)
    (d : InvoiceData) : List String :=
  requiredErrors d ++ amountErrors d.amount ++ dateErrors today d.date
    ++ dupErrors isDup d.invoiceNumber d.vendorCode

/-- Outcome of `_match_with_po`: the match verdict and the variance
percentage it computed. -/
structure POMatchResult where
  isMatch : Bool
  variancePercent : ℚ
  deriving DecidableEq, Repr

/-- Python `_match_with_po`: read the PO (line items as quantity-price pairs, or
a lookup exception), total it, and match iff the variance
`|po_total - invoice_amount| / po_total * 100` is at most 5.0 percent.
A failed PO read — and a zero PO total, whose division raises
`ZeroDivisionError` in the source — is caught by the method's handler
and reported as no match. -/
def matchWithPO (poData : Except String (List (ℚ × ℚ))) (invoiceAmount : ℚ) :
    POMatchResult :=
  match poData with
  | .error _ => ⟨false, 0⟩
  | .ok items =>
    if (items.map fun p => p.1 * p.2).sum = 0 then ⟨false, 0⟩
    else
      ⟨decide
          (|(items.map fun p => p.1 * p.2).sum - invoiceAmount|
              / (items.map fun p => p.1 * p.2).sum * 100 ≤ 5),
        |(items.map fun p => p.1 * p.2).sum - invoiceAmount|
          / (items.map fun p => p.1 * p.2).sum * 100⟩

/-- Python `_three_way_match`: list the goods-receipt documents for the PO; an
exception during the lookup, or an empty list, is no match, otherwise a
match (the quantity comparison is omitted in the source). -/
def threeWayMatch (grRead : Except String (List String)) : Bool :=
  match grRead with
  | .error _ => false
  | .ok docs => decide (docs ≠ [])

/-- Environment of one `process_invoice_file` run: the current day, the
duplicate oracle, and the outcome of each remote/collaborator call the
workflow may reach (an `Except.error` is an exception raised at that
point, e.g. the missing `config` attribute read in
`_requires_approval`). -/
structure InvWorkflowEnv where
  today : Int
  isDup : String → String → Bool
  getOrCreateVendor : Except String String
  poRead : Except String (List (ℚ × ℚ))
  grRead : Except String (List String)
  approvalThreshold : Except String ℚ
  postInvoice : Except String String

/-- Observable outcome of `process_invoice_file`: the terminal status and
error list of the result dict, the posted document, plus instrumentation
recording whether vendor resolution (`get_or_create_vendor`) and posting
(`_post_invoice_to_sap`) were invoked during the run. -/
structure InvResult where
  status : String
  errors : List String
  sapDocument : Option String
  vendorResolutionInvoked : Bool
  postInvoked : Bool
  deriving DecidableEq, Repr

/-- Steps 7-8 of `process_invoice_file`: approval gate then posting.
`_request_approval` (its notification helper is spec-modelled as
fire-and-forget) always returns status `pending`, so an invoice above the
threshold always halts at `pending_approval`. -/
def invFinalStage (env : InvWorkflowEnv) (d : InvoiceData) : InvResult :=
  match env.approvalThreshold with
  | .error e => ⟨"failed", [e], none, true, false⟩
  | .ok thr =>
    if thr < d.amount.getD 0 then
      ⟨"pending_approval", [], none, true, false⟩
    else
      match env.postInvoice with
      | .error e => ⟨"failed", [e], none, true, true⟩
      | .ok doc => ⟨"completed", [], some doc, true, true⟩

/-- Python `process_invoice_file` from the validation stage on (steps 3-8), the
extraction result `d0` given: invalid data short-circuit to
`requires_manual_review` (the review-queue notification is spec-modelled
as fire-and-forget), then vendor resolution, PO matching and 3-way
matching when a PO number was extracted, approval gating, and posting;
an exception at any reached step yields status `failed` with the error
recorded. -/
def processInvoiceFile (env : InvWorkflowEnv) (d0 : InvoiceData) : InvResult :=
  if validateInvoiceData env.today env.isDup d0 = [] then
    match env.getOrCreateVendor with
    | .error e => ⟨"failed", [e], none, true, false⟩
    | .ok _ =>
      if truthyS d0.poNumber then
        if (matchWithPO env.poRead (d0.amount.getD 0)).isMatch = false then
          ⟨"po_mismatch", ["PO mismatch"], none, true, false⟩
        else if threeWayMatch env.grRead = false then
          ⟨"three_way_mismatch", ["3-way mismatch"], none, true, false⟩
        else invFinalStage env d0
      else invFinalStage env d0
  else
    ⟨"requires_manual_review", validateInvoiceData env.today env.isDup d0,
      none, false, false⟩

/-- Claim C7: PO matching declares a match exactly when
`|po_total - invoice_amount| / po_total ≤ 5%` (for a positive PO total);
in particular a PO totalling 1000 matches an invoice of 1050 (variance
exactly 5%) and does not match one of 1051 (variance 5.1%). -/
theorem c7_po_match_tolerance (items : List (ℚ × ℚ)) (amt : ℚ)
    (hpos : 0 < (items.map fun p => p.1 * p.2).sum) :
    ((matchWithPO (.ok items) amt).isMatch = true
      ↔ |(items.map fun p => p.1 * p.2).sum - amt|
          / (items.map fun p => p.1 * p.2).sum ≤ 5 / 100)
    ∧ (matchWithPO (.ok [(1, 1000)]) 1050).isMatch = true
    ∧ (matchWithPO (.ok [(1, 1000)]) 1051).isMatch = false := by
  refine ⟨?_, by norm_num [matchWithPO], by norm_num [matchWithPO, abs_sub_comm]⟩
  simp only [matchWithPO]
  rw [if_neg (ne_of_gt hpos)]
  simp only [decide_eq_true_eq]
  rw [le_div_iff₀ (by norm_num : (0 : ℚ) < 100)]

/-- Witness for C7 at the boundary PO: one line item of quantity 1 at
price 1000. -/
theorem c7_witness :
    ((matchWithPO (.ok [((1 : ℚ), (1000 : ℚ))]) 1050).isMatch = true
      ↔ |([((1 : ℚ), (1000 : ℚ))].map fun p => p.1 * p.2).sum - 1050|
          / ([((1 : ℚ), (1000 : ℚ))].map fun p => p.1 * p.2).sum ≤ 5 / 100)
    ∧ (matchWithPO (.ok [(1, 1000)]) 1050).isMatch = true
    ∧ (matchWithPO (.ok [(1, 1000)]) 1051).isMatch = false :=
  c7_po_match_tolerance [((1 : ℚ), (1000 : ℚ))] 1050 (by norm_num)

/-- Under a missing (or falsy) required field, `_validate_invoice_data`
reports at least one error. -/
theorem validateInvoiceData_ne_nil (today : Int) (isDup : String → String → Bool)
    (d : InvoiceData)
    (hmiss : truthyS d.vendor = false ∨ truthyS d.invoiceNumber = false
      ∨ d.date.isSome = false ∨ truthyQ d.amount = false) :
    validateInvoiceData today isDup d ≠ [] := by
  rcases hmiss with h | h | h | h <;>
    simp [validateInvoiceData, requiredErrors, h, List.append_eq_nil]

/-- Claim C8: for every extraction result missing a required field
(vendor, invoice_number, date or amount), `process_invoice_file` returns
status `requires_manual_review` carrying the (non-empty) validation
errors, and neither vendor resolution nor posting is invoked in that
run. -/
theorem c8_workflow_short_circuit (env : InvWorkflowEnv) (d : InvoiceData)
    (hmiss : truthyS d.vendor = false ∨ truthyS d.invoiceNumber = false
      ∨ d.date.isSome = false ∨ truthyQ d.amount = false) :
    (processInvoiceFile env d).status = "requires_manual_review"
    ∧ (processInvoiceFile env d).errors = validateInvoiceData env.today env.isDup d
    ∧ (processInvoiceFile env d).errors ≠ []
    ∧ (processInvoiceFile env d).vendorResolutionInvoked = false
    ∧ (processInvoiceFile env d).postInvoked = false := by
  have hne := validateInvoiceData_ne_nil env.today env.isDup d hmiss
  unfold processInvoiceFile
  rw [if_neg hne]
  exact ⟨rfl, rfl, hne, rfl, rfl⟩

/-- Witness for C8: an extraction result with no vendor field; everything
downstream is available, yet the run stops at manual review. -/
theorem c8_witness :
    (processInvoiceFile
        ⟨20000, fun _ _ => false, .ok "V100", .ok [(1, 1000)], .ok ["GR1"],
          .ok 10000, .ok "DOC77"⟩
        ⟨none, some "INV-1", some 19990, some 100, none, none⟩).status
      = "requires_manual_review"
    ∧ (processInvoiceFile
        ⟨20000, fun _ _ => false, .ok "V100", .ok [(1, 1000)], .ok ["GR1"],
          .ok 10000, .ok "DOC77"⟩
        ⟨none, some "INV-1", some 19990, some 100, none, none⟩).errors
      = validateInvoiceData 20000 (fun _ _ => false)
          ⟨none, some "INV-1", some 19990, some 100, none, none⟩
    ∧ (processInvoiceFile
        ⟨20000, fun _ _ => false, .ok "V100", .ok [(1, 1000)], .ok ["GR1"],
          .ok 10000, .ok "DOC77"⟩
        ⟨none, some "INV-1", some 19990, some 100, none, none⟩).errors ≠ []
    ∧ (processInvoiceFile
        ⟨20000, fun _ _ => false, .ok "V100", .ok [(1, 1000)], .ok ["GR1"],
          .ok 10000, .ok "DOC77"⟩
        ⟨none, some "INV-1", some 19990, some 100, none, none⟩).vendorResolutionInvoked
      = false
    ∧ (processInvoiceFile
        ⟨20000, fun _ _ => false, .ok "V100", .ok [(1, 1000)], .ok ["GR1"],
          .ok 10000, .ok "DOC77"⟩
        ⟨none, some "INV-1", some 19990, some 100, none, none⟩).postInvoked = false :=
  c8_workflow_short_circuit
    ⟨20000, fun _ _ => false, .ok "V100", .ok [(1, 1000)], .ok ["GR1"],
      .ok 10000, .ok "DOC77"⟩
    ⟨none, some "INV-1", some 19990, some 100, none, none⟩
    (Or.inl rfl)

/-! ## Procure-to-pay workflow (src/workflows/procure_to_pay.py) -/

/-- Python `ProcureToPayRequest` (materials opaque: they only flow into the
remote calls, whose outcomes the environment supplies). -/
structure P2PRequest where
  requisitionId : String
  vendor : String
  materials : List String
  totalAmount : ℚ
  urgency : String
  requester : String
  costCenter : String
  deriving DecidableEq, Repr

/-- Python `_should_auto_pay`: pay automatically iff the amount does not exceed
10000 and the urgency is not `emergency`. -/
def shouldAutoPay (req : P2PRequest) : Bool :=
  if 10000 < req.totalAmount then false
  else if req.urgency = "emergency" then false
  else true

/-- Remote outcomes consumed by one `ProcureToPayWorkflow.execute` run.
The step-1 AI classification is omitted: `_classify_request` catches its
own exceptions and falls back to defaults, so it cannot alter the flow. -/
structure P2PEnv where
  createPO : Except String String
  goodsReceipt : Except String String
  verifyInvoice : Except String Bool
  postInvoice : Except String String
  processPayment : Except String String

/-- Observable summary of one `execute` run: terminal status, the
`steps_completed` list, the `documents` map entries, and errors. -/
structure P2PResult where
  status : String
  stepsCompleted : List String
  poNumber : Option String
  materialDocument : Option String
  invoiceDocument : Option String
  paymentDocument : Option String
  errors : List String
  deriving DecidableEq, Repr

/-- Python `ProcureToPayWorkflow.execute`: create PO, post goods receipt, verify
the invoice (False halts at `requires_review`), post the invoice, then
process payment only when `_should_auto_pay` allows; any exception yields
status `failed` with the error recorded and the documents accumulated so
far kept. -/
def p2pExecute (env : P2PEnv) (req : P2PRequest) : P2PResult :=
  match env.createPO with
  | .error e => ⟨"failed", [], none, none, none, none, [e]⟩
  | .ok po =>
    match env.goodsReceipt with
    | .error e => ⟨"failed", ["po_created"], some po, none, none, none, [e]⟩
    | .ok md =>
      match env.verifyInvoice with
      | .error e =>
        ⟨"failed", ["po_created", "goods_received"], some po, some md, none, none, [e]⟩
      | .ok valid =>
        if valid = false then
          ⟨"requires_review", ["po_created", "goods_received"], some po, some md,
            none, none, ["Invoice verification failed - requires manual review"]⟩
        else
          match env.postInvoice with
          | .error e =>
            ⟨"failed", ["po_created", "goods_received"], some po, some md,
              none, none, [e]⟩
          | .ok inv =>
            if shouldAutoPay req then
              match env.processPayment with
              | .error e =>
                ⟨"failed", ["po_created", "goods_received", "invoice_posted"],
                  some po, some md, some inv, none, [e]⟩
              | .ok pay =>
                ⟨"completed",
                  ["po_created", "goods_received", "invoice_posted", "payment_processed"],
                  some po, some md, some inv, some pay, []⟩
            else
              ⟨"completed", ["po_created", "goods_received", "invoice_posted"],
                some po, some md, some inv, none, []⟩

/-- Claim C9: with all remote steps succeeding and urgency `normal`, a
request of exactly 10000 triggers automatic payment (the payment step
runs and `payment_document` is recorded), while a request of 10001 skips
the payment step and still completes, with no `payment_document` among
its documents. -/
theorem c9_auto_pay_boundary (env : P2PEnv) (req : P2PRequest)
    (po md inv pay : String)
    (h1 : env.createPO = .ok po) (h2 : env.goodsReceipt = .ok md)
    (h3 : env.verifyInvoice = .ok true) (h4 : env.postInvoice = .ok inv)
    (h5 : env.processPayment = .ok pay)
    (hu : req.urgency = "normal") :
    (p2pExecute env { req with totalAmount := 10000 }).paymentDocument = some pay
    ∧ "payment_processed"
        ∈ (p2pExecute env { req with totalAmount := 10000 }).stepsCompleted
    ∧ (p2pExecute env { req with totalAmount := 10001 }).status = "completed"
    ∧ (p2pExecute env { req with totalAmount := 10001 }).paymentDocument = none := by
  have hpay : shouldAutoPay { req with totalAmount := 10000 } = true := by
    simp [shouldAutoPay, hu]
  have hskip : shouldAutoPay { req with totalAmount := 10001 } = false := by
    norm_num [shouldAutoPay]
  simp only [p2pExecute, h1, h2, h3, h4, h5, hpay, hskip]
  refine ⟨rfl, ?_, rfl, rfl⟩
  simp

/-- Witness for C9 with all remote steps succeeding on concrete
documents. -/
theorem c9_witness :
    (p2pExecute ⟨.ok "PO1", .ok "MD1", .ok true, .ok "INV1", .ok "PAY1"⟩
        { requisitionId := "REQ-1", vendor := "1000", materials := ["MAT001"],
          totalAmount := 10000, urgency := "normal", requester := "U1",
          costCenter := "CC1000" }).paymentDocument = some "PAY1"
    ∧ "payment_processed"
        ∈ (p2pExecute ⟨.ok "PO1", .ok "MD1", .ok true, .ok "INV1", .ok "PAY1"⟩
        { requisitionId := "REQ-1", vendor := "1000", materials := ["MAT001"],
          totalAmount := 10000, urgency := "normal", requester := "U1",
          costCenter := "CC1000" }).stepsCompleted
    ∧ (p2pExecute ⟨.ok "PO1", .ok "MD1", .ok true, .ok "INV1", .ok "PAY1"⟩
        { requisitionId := "REQ-1", vendor := "1000", materials := ["MAT001"],
          totalAmount := 10001, urgency := "normal", requester := "U1",
          costCenter := "CC1000" }).status = "completed"
    ∧ (p2pExecute ⟨.ok "PO1", .ok "MD1", .ok true, .ok "INV1", .ok "PAY1"⟩
        { requisitionId := "REQ-1", vendor := "1000", materials := ["MAT001"],
          totalAmount := 10001, urgency := "normal", requester := "U1",
          costCenter := "CC1000" }).paymentDocument = none := by
  have h := c9_auto_pay_boundary
    ⟨.ok "PO1", .ok "MD1", .ok true, .ok "INV1", .ok "PAY1"⟩
    { requisitionId := "REQ-1", vendor := "1000", materials := ["MAT001"],
      totalAmount := 0, urgency := "normal", requester := "U1",
      costCenter := "CC1000" }
    "PO1" "MD1" "INV1" "PAY1" rfl rfl rfl rfl rfl rfl
  exact h

end SAPAI
